import Mathlib

/-!
Verification development for the DirectPV device discovery, identity, matching
and initialization engine.  The Go sources are shallowly embedded: pure Go
functions become Lean functions, injected collaborator functions (format,
mount, cluster API calls) become oracle parameters recording their outcomes,
and Go runtime panics are modelled by an explicit `panic` outcome.
-/

set_option maxRecDepth 100000

namespace DirectPV

/-
### String ordering

Go's `sort.Strings` sorts strings byte-wise.  We model it with a structural
lexicographic comparison on the character lists of Lean strings (identical to
byte order on ASCII data), so that sorting is kernel-computable.
-/

/-- Lexicographic comparison of char lists by code point, mirroring Go's
byte-wise string comparison used by `sort.Strings`. -/
def charListLe : List Char → List Char → Bool
  | [], _ => true
  | _ :: _, [] => false
  | a :: as, b :: bs =>
    if a.toNat < b.toNat then true
    else if b.toNat < a.toNat then false
    else charListLe as bs

/-- Boolean string comparison used for sorting. -/
def strLe (a b : String) : Bool := charListLe a.data b.data

/-- The ordering relation on strings induced by `strLe`. -/
def strLeRel (a b : String) : Prop := strLe a b = true

instance : DecidableRel strLeRel := fun a b => by unfold strLeRel; infer_instance

theorem charListLe_total : ∀ as bs, charListLe as bs = true ∨ charListLe bs as = true := by
  intro as
  induction as with
  | nil => intro bs; left; rfl
  | cons a as ih =>
    intro bs
    cases bs with
    | nil => right; rfl
    | cons b bs =>
      simp only [charListLe]
      rcases Nat.lt_trichotomy a.toNat b.toNat with h | h | h
      · left; simp [h]
      · have h1 : ¬ a.toNat < b.toNat := by omega
        have h2 : ¬ b.toNat < a.toNat := by omega
        rcases ih bs with h3 | h3
        · left; simp [h1, h2, h3]
        · right; simp [h1, h2, h3]
      · right; simp [h, Nat.lt_asymm h]

theorem charListLe_trans : ∀ as bs cs, charListLe as bs = true → charListLe bs cs = true →
    charListLe as cs = true := by
  intro as
  induction as with
  | nil => intro bs cs _ _; rfl
  | cons a as ih =>
    intro bs cs hab hbc
    cases bs with
    | nil => simp [charListLe] at hab
    | cons b bs =>
      cases cs with
      | nil => simp [charListLe] at hbc
      | cons c cs =>
        simp only [charListLe] at hab hbc ⊢
        by_cases h1 : a.toNat < b.toNat <;> by_cases h2 : b.toNat < c.toNat
        · simp [show a.toNat < c.toNat by omega]
        · simp only [h2, if_neg] at hbc
          by_cases h3 : c.toNat < b.toNat
          · simp [h3] at hbc
          · have : b.toNat = c.toNat := by omega
            simp [show a.toNat < c.toNat by omega]
        · simp only [h1, if_neg] at hab
          by_cases h3 : b.toNat < a.toNat
          · simp [h3] at hab
          · have : a.toNat = b.toNat := by omega
            simp [show a.toNat < c.toNat by omega]
        · simp only [h1, if_neg] at hab
          simp only [h2, if_neg] at hbc
          by_cases h3 : b.toNat < a.toNat
          · simp [h3] at hab
          · by_cases h4 : c.toNat < b.toNat
            · simp [h4] at hbc
            · have ha : ¬ a.toNat < c.toNat := by omega
              have hb : ¬ c.toNat < a.toNat := by omega
              simp only [ha, hb, if_neg, if_false]
              simp only [if_neg h3] at hab
              simp only [if_neg h4] at hbc
              exact ih bs cs hab hbc

theorem charListLe_antisymm : ∀ as bs, charListLe as bs = true → charListLe bs as = true →
    as = bs := by
  intro as
  induction as with
  | nil =>
    intro bs _ hba
    cases bs with
    | nil => rfl
    | cons b bs => simp [charListLe] at hba
  | cons a as ih =>
    intro bs hab hba
    cases bs with
    | nil => simp [charListLe] at hab
    | cons b bs =>
      simp only [charListLe] at hab hba
      by_cases h1 : a.toNat < b.toNat
      · simp [Nat.lt_asymm h1, h1] at hba
      · by_cases h2 : b.toNat < a.toNat
        · simp [h1, h2] at hab
        · have hval : a.toNat = b.toNat := by omega
          have hchar : a = b := Char.eq_of_val_eq (UInt32.ext hval)
          simp only [if_neg h1, if_neg h2] at hab hba
          rw [hchar, ih bs hab hba]

instance : IsTotal String strLeRel :=
  ⟨fun a b => charListLe_total a.data b.data⟩

instance : IsTrans String strLeRel :=
  ⟨fun a b c => charListLe_trans a.data b.data c.data⟩

instance : IsAntisymm String strLeRel :=
  ⟨fun a b hab hba => by
    have := charListLe_antisymm a.data b.data hab hba
    cases a; cases b; exact congrArg String.mk this⟩

/-- Embedding of Go's `sort.Strings` (used by `Device.ID`). -/
def sortStrings (l : List String) : List String := l.insertionSort strLeRel

theorem sortStrings_perm (l : List String) : (sortStrings l).Perm l :=
  List.perm_insertionSort strLeRel l

theorem sortStrings_perm_eq {l1 l2 : List String} (h : l1.Perm l2) :
    sortStrings l1 = sortStrings l2 :=
  List.eq_of_perm_of_sorted
    (((sortStrings_perm l1).trans h).trans (sortStrings_perm l2).symm)
    (List.sorted_insertionSort strLeRel l1)
    (List.sorted_insertionSort strLeRel l2)

/-
### Event decoder: `parse` from pkg/uevent (src/unnamed/part_000)

A raw kernel hotplug buffer is a byte list.  The constants `libudev`,
`libudevMagic` and `fieldDelimiter` are repository code outside src/.
-/

/-- Modelled from the spec: the "fixed ASCII signature header" checked at the
start of the buffer (the `libudev` constant, defined outside src/): the
8 bytes of the NUL-terminated ASCII string of that name, so that the 4-byte
magic number sits at byte offset 8 as section 6 of the spec requires. -/
def libudevSignature : List Nat := [108, 105, 98, 117, 100, 101, 118, 0]

/-- Modelled from the spec: the expected 4-byte big-endian "magic constant at
byte offset 8" (the `libudevMagic` constant, defined outside src/). -/
def libudevMagic : Nat := 0xfeedcafe

/-- Modelled from the spec: the NUL delimiter splitting the payload into
fields (the `fieldDelimiter` constant, defined outside src/). -/
def fieldDelimiter : Nat := 0

/-- Big-endian 32-bit read at index `i`, as `binary.BigEndian.Uint32(msg[i:])`
computes it when in bounds. -/
def bigEndianUint32At (msg : List Nat) (i : Nat) : Nat :=
  16777216 * msg.getD i 0 + 65536 * msg.getD (i + 1) 0 +
    256 * msg.getD (i + 2) 0 + msg.getD (i + 3) 0

/-- Embedding of `bytes.Split` on a single delimiter byte. -/
def splitOnByte (delim : Nat) : List Nat → List (List Nat)
  | [] => [[]]
  | b :: rest =>
    if b = delim then [] :: splitOnByte delim rest
    else
      match splitOnByte delim rest with
      | [] => [[b]]
      | f :: fs => (b :: f) :: fs

/-- Embedding of `strings.SplitN(field, "=", 2)`: the key, and the value when
an equals sign (byte 61) is present. -/
def splitOnceOnEq : List Nat → List Nat × Option (List Nat)
  | [] => ([], none)
  | b :: rest =>
    if b = 61 then ([], some rest)
    else
      let (k, v) := splitOnceOnEq rest
      (b :: k, v)

/-- Go map assignment on an association list: overwrite an existing key,
append a new one. -/
def mapInsert (m : List (List Nat × List Nat)) (k v : List Nat) :
    List (List Nat × List Nat) :=
  if m.any (fun p => p.1 == k) then
    m.map (fun p => if p.1 == k then (k, v) else p)
  else m ++ [(k, v)]

/-- The field loop of `parse`: empty fields are skipped, fields without an
equals sign map to the empty value. -/
def buildEventMap (fields : List (List Nat)) : List (List Nat × List Nat) :=
  fields.foldl
    (fun m field =>
      if field.length = 0 then m
      else
        match splitOnceOnEq field with
        | (k, none) => mapInsert m k []
        | (k, some v) => mapInsert m k v)
    []

/-- The format errors `parse` can return. -/
inductive ParseError
  | signatureNotFound
  | magicMismatch (expected got : Nat)
  | invalidOffset (offset : Nat)
  | offsetBeyondLength (offset len : Nat)
deriving DecidableEq

/-- Outcome of `parse`: a key/value map, a format error, or a Go runtime
panic (index out of range). -/
inductive ParseResult
  | ok (event : List (List Nat × List Nat))
  | error (e : ParseError)
  | panic
deriving DecidableEq

/-- Embedding of `parse` (src/unnamed/part_000, lines 82 to 114).  The Go code
reads `binary.BigEndian.Uint32(msg[8:])` and `msg[16]` without a preceding
length check; when the buffer is too short those reads are out of range and
the Go runtime panics, which the embedding makes explicit. -/
def parse (msg : List Nat) : ParseResult :=
  if libudevSignature.isPrefixOf msg then
    if msg.length < 12 then ParseResult.panic
    else
      let magic := bigEndianUint32At msg 8
      if magic ≠ libudevMagic then
        ParseResult.error (ParseError.magicMismatch libudevMagic magic)
      else if msg.length ≤ 16 then ParseResult.panic
      else
        let offset := msg.getD 16 0
        if offset < 17 then ParseResult.error (ParseError.invalidOffset offset)
        else if offset > msg.length then
          ParseResult.error (ParseError.offsetBeyondLength offset msg.length)
        else ParseResult.ok (buildEventMap (splitOnByte fieldDelimiter (msg.drop offset)))
  else ParseResult.error ParseError.signatureNotFound

/-- Claim C2 (status: code_bug).  The claim says `parse` never crashes on a
buffer that starts with the libudev signature but is shorter than 17 bytes.
The code contradicts it: on the bare 8-byte signature the 4-byte magic read
at offset 8 is out of range, and on a 12-byte buffer whose magic matches the
1-byte payload-offset read at byte 16 is out of range; both panic instead of
returning a format error. -/
theorem claim2_short_buffer_panics :
    parse libudevSignature = ParseResult.panic ∧
    parse (libudevSignature ++ [254, 237, 202, 254]) = ParseResult.panic := by
  constructor <;> decide

/-- Claim C10 (confirmed).  For every buffer carrying the libudev signature
and long enough to hold the magic field, a mismatched 4-byte big-endian magic
at offset 8 fails with the magic-mismatch error; and for every buffer with a
matching magic and a payload-offset byte present, a payload offset of 16 or
less fails with the invalid-offset error. -/
theorem claim10_magic_and_offset_errors :
    (∀ msg : List Nat, libudevSignature.isPrefixOf msg = true → 12 ≤ msg.length →
      bigEndianUint32At msg 8 ≠ libudevMagic →
      parse msg = ParseResult.error
        (ParseError.magicMismatch libudevMagic (bigEndianUint32At msg 8))) ∧
    (∀ msg : List Nat, libudevSignature.isPrefixOf msg = true → 17 ≤ msg.length →
      bigEndianUint32At msg 8 = libudevMagic → msg.getD 16 0 < 17 →
      parse msg = ParseResult.error (ParseError.invalidOffset (msg.getD 16 0))) := by
  constructor
  · intro msg hpre hlen hmagic
    simp only [parse, hpre, if_true]
    rw [if_neg (by omega : ¬ msg.length < 12), if_pos hmagic]
  · intro msg hpre hlen hmagic hoff
    simp only [parse, hpre, if_true]
    rw [if_neg (by omega : ¬ msg.length < 12)]
    simp only [hmagic, ne_eq, not_true_eq_false, if_false, ite_not]
    rw [if_neg (by omega : ¬ msg.length ≤ 16), if_pos hoff]

/-- Witness for claim C10 at two concrete buffers: a 12-byte buffer with a
zero magic, and a 17-byte buffer with the correct magic and offset byte 16. -/
theorem claim10_witness :
    parse (libudevSignature ++ [0, 0, 0, 0]) = ParseResult.error
      (ParseError.magicMismatch libudevMagic
        (bigEndianUint32At (libudevSignature ++ [0, 0, 0, 0]) 8)) ∧
    parse (libudevSignature ++ [254, 237, 202, 254, 0, 0, 0, 0, 16]) =
      ParseResult.error (ParseError.invalidOffset 16) := by
  constructor
  · exact claim10_magic_and_offset_errors.1 _ (by decide) (by decide) (by decide)
  · have h := claim10_magic_and_offset_errors.2
      (libudevSignature ++ [254, 237, 202, 254, 0, 0, 0, 0, 16])
      (by decide) (by decide) (by decide) (by decide)
    simpa using h

/-
### Drive matcher: `match`, `getMatchingDrives`, `runMatcher` from pkg/uevent
(src/pkg/installer/config.go, second document, lines 238 to 430)

The per-criterion matcher functions in the source are all To-Do stubs whose
named results default to `(false, false)`.  `validateNonHostInfo` and
`validateHostInfo` are repository code outside src/ and are taken as
parameters.  Go's `match` is a Lean keyword, so the function is named
`matchStep` here.
-/

/-- Candidate drive record as seen by the matcher; every criterion stub
ignores its fields, so only an identifying name is carried. -/
structure DirectCSIDrive where
  name : String
deriving DecidableEq

/-- Device as seen by the matcher; the criterion stubs ignore its fields. -/
structure SysDevice where
  name : String
deriving DecidableEq

/-- Type of a per-criterion matcher: returns (isMatch, shouldContinue). -/
def MatchFn := DirectCSIDrive → SysDevice → Bool × Bool

/-- Criterion stub from the source: named results default to false. -/
def fsUUIDMatcher : MatchFn := fun _ _ => (false, false)

/-- Criterion stub from the source: named results default to false. -/
def ueventFSUUIDMatcher : MatchFn := fun _ _ => (false, false)

/-- Criterion stub from the source: named results default to false. -/
def serialNumberMatcher : MatchFn := fun _ _ => (false, false)

/-- Criterion stub from the source: named results default to false. -/
def ueventSerialNumberMatcher : MatchFn := fun _ _ => (false, false)

/-- Criterion stub from the source: named results default to false. -/
def wwidMatcher : MatchFn := fun _ _ => (false, false)

/-- Criterion stub from the source: named results default to false. -/
def modelNumberMatcher : MatchFn := fun _ _ => (false, false)

/-- Criterion stub from the source: named results default to false. -/
def vendorMatcher : MatchFn := fun _ _ => (false, false)

/-- Criterion stub from the source: named results default to false. -/
def partitionNumberMatcher : MatchFn := fun _ _ => (false, false)

/-- Criterion stub from the source: named results default to false. -/
def dmUUIDMatcher : MatchFn := fun _ _ => (false, false)

/-- Criterion stub from the source: named results default to false. -/
def mdUUIDMatcher : MatchFn := fun _ _ => (false, false)

/-- Criterion stub from the source: named results default to false. -/
def partitionUUIDMatcher : MatchFn := fun _ _ => (false, false)

/-- Criterion stub from the source: named results default to false. -/
def partitionTableUUIDMatcher : MatchFn := fun _ _ => (false, false)

/-- Criterion stub from the source: named results default to false. -/
def logicalBlocksizeMatcher : MatchFn := fun _ _ => (false, false)

/-- Criterion stub from the source: named results default to false. -/
def physicalBlocksizeMatcher : MatchFn := fun _ _ => (false, false)

/-- Criterion stub from the source: named results default to false. -/
def filesystemMatcher : MatchFn := fun _ _ => (false, false)

/-- Criterion stub from the source: named results default to false. -/
def totalCapacityMatcher : MatchFn := fun _ _ => (false, false)

/-- Criterion stub from the source: named results default to false. -/
def allocatedCapacityMatcher : MatchFn := fun _ _ => (false, false)

/-- Criterion stub from the source: named results default to false. -/
def mountMatcher : MatchFn := fun _ _ => (false, false)

/-- The ordered criterion chain from the source. -/
def matchers : List MatchFn :=
  [fsUUIDMatcher, ueventFSUUIDMatcher, serialNumberMatcher, ueventSerialNumberMatcher,
   wwidMatcher, modelNumberMatcher, vendorMatcher, partitionNumberMatcher,
   dmUUIDMatcher, mdUUIDMatcher, partitionUUIDMatcher, partitionTableUUIDMatcher,
   logicalBlocksizeMatcher, physicalBlocksizeMatcher, filesystemMatcher,
   totalCapacityMatcher, allocatedCapacityMatcher, mountMatcher]

/-- Embedding of `match` (config.go lines 307 to 321): collect the drives the
criterion matches; a 100 percent match (cont = false) returns that single
drive immediately with the stop flag. -/
def matchStep : List DirectCSIDrive → SysDevice → MatchFn → List DirectCSIDrive × Bool
  | [], _, _ => ([], true)
  | d :: ds, device, f =>
    if (f d device).1 then
      if (f d device).2 then
        match matchStep ds device f with
        | (rest, true) => (d :: rest, true)
        | (rest, false) => (rest, false)
      else ([d], false)
    else matchStep ds device f

/-- The criterion loop of `getMatchingDrives` (config.go lines 295 to 305). -/
def narrow : List MatchFn → List DirectCSIDrive → SysDevice → List DirectCSIDrive
  | [], ds, _ => ds
  | f :: fs, ds, device =>
    match matchStep ds device f with
    | (ds2, true) => narrow fs ds2 device
    | (ds2, false) => ds2

/-- Embedding of `getMatchingDrives`. -/
def getMatchingDrives (drives : List DirectCSIDrive) (device : SysDevice) :
    List DirectCSIDrive :=
  narrow matchers drives device

/-- Terminal outcomes of `runMatcher`. -/
inductive MatchResult
  | noMatch
  | tooManyMatches
  | changed
  | noChange
deriving DecidableEq

/-- Embedding of `runMatcher` (config.go lines 270 to 293).
`validateNonHostInfo` and `validateHostInfo` are repository code outside
src/, passed as parameters. -/
def runMatcher (validateNonHostInfo validateHostInfo : DirectCSIDrive → SysDevice → Bool)
    (drives : List DirectCSIDrive) (device : SysDevice) :
    Option DirectCSIDrive × MatchResult :=
  match getMatchingDrives drives device with
  | [d] =>
    if validateNonHostInfo d device && validateHostInfo d device then (some d, MatchResult.noChange)
    else (some d, MatchResult.changed)
  | [] => (none, MatchResult.noMatch)
  | _ => (none, MatchResult.tooManyMatches)

theorem matchStep_zero_matches (drives : List DirectCSIDrive) (device : SysDevice)
    (f : MatchFn) (h : ∀ d ∈ drives, (f d device).1 = false) :
    matchStep drives device f = ([], true) := by
  induction drives with
  | nil => rfl
  | cons d ds ih =>
    have hd : (f d device).1 = false := h d (by simp)
    simp only [matchStep, hd, Bool.false_eq_true, if_false]
    exact ih (fun d hm => h d (by simp [hm]))

theorem narrow_nil_candidates (fs : List MatchFn) (device : SysDevice) :
    narrow fs [] device = [] := by
  induction fs with
  | nil => rfl
  | cons f fs ih => simpa [narrow, matchStep] using ih

theorem getMatchingDrives_eq_nil (drives : List DirectCSIDrive) (device : SysDevice) :
    getMatchingDrives drives device = [] := by
  unfold getMatchingDrives matchers
  simp [narrow, matchStep, matchStep_zero_matches drives device fsUUIDMatcher (fun _ _ => rfl)]

/-- Claim C1 counterexample.  The claim says a criterion matching zero of the
current candidates leaves the set unnarrowed, and that two drives lacking any
distinguishing criterion value survive the chain so the matcher returns
"too many matches".  On the code, a zero-match criterion replaces the set by
the empty list, and two such drives yield "no match". -/
theorem claim1_counterexample :
    matchStep [⟨"drive-a"⟩] ⟨"dev"⟩ fsUUIDMatcher = ([], true) ∧
    matchStep [⟨"drive-a"⟩] ⟨"dev"⟩ fsUUIDMatcher ≠ ([⟨"drive-a"⟩], true) ∧
    runMatcher (fun _ _ => true) (fun _ _ => true) [⟨"drive-a"⟩, ⟨"drive-b"⟩] ⟨"dev"⟩ =
      (none, MatchResult.noMatch) ∧
    (runMatcher (fun _ _ => true) (fun _ _ => true) [⟨"drive-a"⟩, ⟨"drive-b"⟩] ⟨"dev"⟩).2 ≠
      MatchResult.tooManyMatches := by
  refine ⟨by decide, by decide, by decide, by decide⟩

/-- Claim C1 as amended.  A criterion matching zero of the current candidates
(and declaring no 100 percent match) empties the candidate set for that step,
and narrowing continues on the empty set; in particular, since every criterion
in the chain is an unimplemented stub matching nothing, two candidate drives
lacking any distinguishing value are both eliminated at the first criterion
and the matcher returns "no match". -/
theorem claim1_zero_match_empties :
    (∀ (drives : List DirectCSIDrive) (device : SysDevice) (f : MatchFn),
      (∀ d ∈ drives, (f d device).1 = false) → matchStep drives device f = ([], true)) ∧
    (∀ (validateNonHostInfo validateHostInfo : DirectCSIDrive → SysDevice → Bool)
      (d1 d2 : DirectCSIDrive) (rest : List DirectCSIDrive) (device : SysDevice),
      runMatcher validateNonHostInfo validateHostInfo (d1 :: d2 :: rest) device =
        (none, MatchResult.noMatch)) := by
  refine ⟨matchStep_zero_matches, ?_⟩
  intro vn vh d1 d2 rest device
  simp [runMatcher, getMatchingDrives_eq_nil]

/-- Witness for claim C1 as amended, at one drive with the first criterion and
at a two-drive candidate list. -/
theorem claim1_witness :
    matchStep [⟨"drive-a"⟩] ⟨"dev"⟩ fsUUIDMatcher = ([], true) ∧
    runMatcher (fun _ _ => false) (fun _ _ => false) [⟨"drive-a"⟩, ⟨"drive-b"⟩] ⟨"dev"⟩ =
      (none, MatchResult.noMatch) :=
  ⟨claim1_zero_match_empties.1 [⟨"drive-a"⟩] ⟨"dev"⟩ fsUUIDMatcher (by decide),
   claim1_zero_match_empties.2 (fun _ _ => false) (fun _ _ => false) ⟨"drive-a"⟩ ⟨"drive-b"⟩ []
     ⟨"dev"⟩⟩

/-
### Device identity: `Device.ID` from pkg/device (src/unnamed/part_001,
lines 594 to 636)

`Device.ID` hashes a serialization of the device attributes.  The receiver is
a value copy, but `sort.Strings(d.Holders)` and `sort.Strings(d.MountPoints)`
permute the shared backing arrays, so the caller's slices end up sorted: the
embedding returns the post-call device alongside the fingerprint.  The
cryptographic digest (`sha256` plus base64, Go standard library, not
repository code) is passed as a parameter; `toSlice` is repository code
outside src/.
-/

/-- Block device snapshot (src/unnamed/part_001, lines 595 to 609).  The Go
`udevData` map is carried as an association list with the keys unique. -/
structure Device where
  Name : String
  MajorMinor : String
  Size : Nat
  Hidden : Bool
  Removable : Bool
  ReadOnly : Bool
  Partitioned : Bool
  Holders : List String
  MountPoints : List String
  SwapOn : Bool
  CDROM : Bool
  DMName : String
  udevData : List (String × String)
deriving DecidableEq

/-- Go's `fmt.Sprintf("%v", b)` on a bool. -/
def boolString (b : Bool) : String := if b then "true" else "false"

/-- Modelled from the spec: `toSlice` (repository code outside src/) renders a
map as "key sep value" entries "joined in sorted key order". -/
def toSlice (m : List (String × String)) (sep : String) : List String :=
  (sortStrings (m.map Prod.fst)).map
    (fun k => k ++ sep ++ ((m.find? (fun p => p.1 == k)).map Prod.snd).getD "")

/-- The `deviceMap` literal built inside `Device.ID` (lines 616 to 631); the
holder and mount-point lists have already been sorted at this point. -/
def Device.deviceMap (d : Device) (nodeID : String) : List (String × String) :=
  [("node", nodeID),
   ("name", d.Name),
   ("majorminor", d.MajorMinor),
   ("size", toString d.Size),
   ("hidden", boolString d.Hidden),
   ("removable", boolString d.Removable),
   ("readonly", boolString d.ReadOnly),
   ("partitioned", boolString d.Partitioned),
   ("holders", String.intercalate "," d.Holders),
   ("mountpoints", String.intercalate "," d.MountPoints),
   ("swapon", boolString d.SwapOn),
   ("cdrom", boolString d.CDROM),
   ("dmname", d.DMName),
   ("udevdata", String.intercalate ";" (toSlice d.udevData "="))]

/-- Effect of the two in-place `sort.Strings` calls at the start of
`Device.ID` on the caller's device. -/
def Device.sortLists (d : Device) : Device :=
  { d with Holders := sortStrings d.Holders, MountPoints := sortStrings d.MountPoints }

/-- The `stringToHash` serialization of `Device.ID` (line 633). -/
def Device.hashString (d : Device) (nodeID : String) : String :=
  String.intercalate "\n" (toSlice (d.sortLists.deviceMap nodeID) ":")

/-- Embedding of `Device.ID` (lines 612 to 636); `digest` stands for
base64 of the sha256 digest. -/
def Device.ID (d : Device) (digest : String → String) (nodeID : String) : String :=
  d.MajorMinor ++ "$" ++ digest (d.hashString nodeID)

/-- One call of `Device.ID` as the caller observes it: the returned
fingerprint together with the device after the in-place sorts. -/
def Device.idRun (d : Device) (digest : String → String) (nodeID : String) :
    String × Device :=
  (d.ID digest nodeID, d.sortLists)

/-- Sample device with unsorted holders, used to exhibit the in-place sort. -/
def devSample : Device :=
  { Name := "sda", MajorMinor := "8:0", Size := 1073741824, Hidden := false,
    Removable := false, ReadOnly := false, Partitioned := false,
    Holders := ["sdy", "sdx"], MountPoints := ["/mnt/b", "/mnt/a"],
    SwapOn := false, CDROM := false, DMName := "", udevData := [] }

/-- Claim C5 counterexample.  The claim says computing the fingerprint leaves
the Holders and MountPoints lists in their original order; on the code the
caller's lists come back sorted, so an unsorted list is reordered. -/
theorem claim5_counterexample :
    ((devSample.idRun (fun s => s) "node-1").2).Holders = ["sdx", "sdy"] ∧
    ((devSample.idRun (fun s => s) "node-1").2).Holders ≠ devSample.Holders ∧
    ((devSample.idRun (fun s => s) "node-1").2).MountPoints ≠ devSample.MountPoints := by
  refine ⟨by decide, by decide, by decide⟩

/-- Claim C5 as amended.  Computing the fingerprint sorts the device's
Holders and MountPoints lists in place: afterwards they hold exactly their
original elements (a permutation) but in ascending order rather than the
original order, and every other field of the snapshot is unchanged. -/
theorem claim5_sort_effect (digest : String → String) (nodeID : String) (d : Device) :
    ((d.idRun digest nodeID).2).Holders.Perm d.Holders ∧
    ((d.idRun digest nodeID).2).MountPoints.Perm d.MountPoints ∧
    ((d.idRun digest nodeID).2).Holders = sortStrings d.Holders ∧
    ((d.idRun digest nodeID).2).MountPoints = sortStrings d.MountPoints ∧
    ((d.idRun digest nodeID).2).Name = d.Name ∧
    ((d.idRun digest nodeID).2).MajorMinor = d.MajorMinor ∧
    ((d.idRun digest nodeID).2).Size = d.Size ∧
    ((d.idRun digest nodeID).2).Hidden = d.Hidden ∧
    ((d.idRun digest nodeID).2).Removable = d.Removable ∧
    ((d.idRun digest nodeID).2).ReadOnly = d.ReadOnly ∧
    ((d.idRun digest nodeID).2).Partitioned = d.Partitioned ∧
    ((d.idRun digest nodeID).2).SwapOn = d.SwapOn ∧
    ((d.idRun digest nodeID).2).CDROM = d.CDROM ∧
    ((d.idRun digest nodeID).2).DMName = d.DMName ∧
    ((d.idRun digest nodeID).2).udevData = d.udevData :=
  ⟨sortStrings_perm d.Holders, sortStrings_perm d.MountPoints,
   rfl, rfl, rfl, rfl, rfl, rfl, rfl, rfl, rfl, rfl, rfl, rfl, rfl⟩

/-- Device used for the fingerprint collision; only the Holders differ
between the two variants below. -/
def devCollisionA : Device := { devSample with Holders := ["a,b"], MountPoints := [] }

/-- Second variant: two holders whose comma-join coincides with the single
holder of `devCollisionA`. -/
def devCollisionB : Device := { devSample with Holders := ["a", "b"], MountPoints := [] }

/-- Claim C6 counterexample.  The claim says any change to a single
comparison attribute yields a different fingerprint.  Holders are serialized
by joining with "," without escaping, so the distinct holder lists
["a,b"] and ["a", "b"] produce the same serialized hash input and hence the
same fingerprint (for any digest; shown here for the identity digest). -/
theorem claim6_counterexample :
    Device.hashString devCollisionA "node-1" = Device.hashString devCollisionB "node-1" ∧
    Device.ID devCollisionA (fun s => s) "node-1" =
      Device.ID devCollisionB (fun s => s) "node-1" ∧
    devCollisionA.Holders ≠ devCollisionB.Holders := by
  refine ⟨by decide, by decide, by decide⟩

/-- Claim C6 as amended.  The fingerprint is unchanged under any permutation
of the holder list and of the mount-point list; and a change to a comparison
attribute yields a different fingerprint whenever it changes the serialized
comparison string (the serialization is not injective, so some attribute
changes, such as the comma-join collision above, leave the fingerprint
unchanged). -/
theorem claim6_fingerprint :
    (∀ (digest : String → String) (nodeID : String) (d : Device) (h m : List String),
      h.Perm d.Holders → m.Perm d.MountPoints →
      Device.ID { d with Holders := h, MountPoints := m } digest nodeID =
        d.ID digest nodeID) ∧
    (∀ (digest : String → String) (nodeID : String) (d1 d2 : Device),
      Function.Injective digest → d1.MajorMinor = d2.MajorMinor →
      d1.hashString nodeID ≠ d2.hashString nodeID →
      d1.ID digest nodeID ≠ d2.ID digest nodeID) := by
  constructor
  · intro digest nodeID d h m hh hm
    have hs : Device.sortLists { d with Holders := h, MountPoints := m } = d.sortLists := by
      simp only [Device.sortLists]
      rw [sortStrings_perm_eq hh, sortStrings_perm_eq hm]
    simp only [Device.ID, Device.hashString, hs]
  · intro digest nodeID d1 d2 hinj hmm hne heq
    apply hne
    apply hinj
    simp only [Device.ID, hmm] at heq
    have hdata := congrArg String.data heq
    simp only [String.data_append] at hdata
    have hcancel := List.append_cancel_left hdata
    exact congrArg String.mk hcancel

/-- Witness for claim C6 as amended: permutation invariance at a concrete
permutation of `devSample`'s lists, and fingerprint distinctness for two
devices whose sizes differ (identity digest, which is injective). -/
theorem claim6_witness :
    Device.ID { devSample with Holders := ["sdx", "sdy"], MountPoints := ["/mnt/a", "/mnt/b"] }
      (fun s => s) "node-1" = devSample.ID (fun s => s) "node-1" ∧
    Device.ID devSample (fun s => s) "node-1" ≠
      Device.ID { devSample with Size := 2147483648 } (fun s => s) "node-1" := by
  constructor
  · exact claim6_fingerprint.1 (fun s => s) "node-1" devSample ["sdx", "sdy"]
      ["/mnt/a", "/mnt/b"] (by decide) (by decide)
  · exact claim6_fingerprint.2 (fun s => s) "node-1" devSample
      { devSample with Size := 2147483648 } (fun _ _ hx => hx) rfl (by decide)

/-
### Single-device initialization: `initRequestEventHandler.initDevice`
(src/unnamed/part_001, lines 353 to 422)

The handler's collaborators (getMounts, makeFS, mount, unmount, symlink,
makeMetaDir, writeFile, the Drive create call) are injected functions; the
embedding records each one's outcome in an environment.  The function's
result type is an UNNAMED `error`, so the deferred closure's assignment
`err = fmt.Errorf("%w; %v", err, uerr)` updates the local variable only; the
embedding keeps both the returned error and the local variable's final value
to make that visible.
-/

/-- Go error values: a leaf message, `fmt.Errorf` wrapping with a note, and
the "original; unmount" combination built in the deferred closure. -/
inductive GoErr
  | base (msg : String)
  | wrap (note : String) (cause : GoErr)
  | appended (e u : GoErr)
deriving DecidableEq

/-- The `Error()` string of a `GoErr`. -/
def GoErr.render : GoErr → String
  | base msg => msg
  | wrap note cause => note ++ cause.render
  | appended e u => e.render ++ "; " ++ u.render

/-- Outcomes of the injected collaborator calls for one `initDevice` run.
`getMounts` yields the device-name-to-mount-points and major-minor-to-names
maps; `makeFS` yields total and free capacity. -/
structure InitEnv where
  getMounts : Except GoErr (List (String × List String) × List (String × List String))
  makeFS : Except GoErr (Nat × Nat)
  mount : Option GoErr
  unmount : Option GoErr
  symlink : Option GoErr
  makeMetaDir : Option GoErr
  writeFile : Option GoErr
  createDrive : Option GoErr

/-- Lookup in a string-keyed map of string sets. -/
def lookupSet (m : List (String × List String)) (k : String) : Option (List String) :=
  (m.find? (fun p => p.1 == k)).map Prod.snd

/-- The mount-point derivation loop at the top of `initDevice`
(lines 361 to 366). -/
def derivedMountPoints (deviceMap majorMinorMap : List (String × List String))
    (majorMinor : String) : List String :=
  match lookupSet majorMinorMap majorMinor with
  | none => []
  | some names => names.foldl (fun acc nm => acc ++ ((lookupSet deviceMap nm).getD [])) []

/-- Embedding of Go's `strings.HasPrefix` as a structural comparison on the
character lists (kernel-computable, unlike `String.isPrefixOf`). -/
def strStartsWith (pre s : String) : Bool := pre.data.isPrefixOf s.data

/-- Modelled from the spec: `utils.AddDevPrefix` (repository code outside
src/) resolves a device name to its /dev path. -/
def devPathOf (name : String) : String :=
  if strStartsWith "/dev/" name then name else "/dev/" ++ name

/-- Observable outcome of one `initDevice` run: the error returned to the
caller, whether the compensating unmount was attempted, whether the Drive
record was created, and the final value of the local `err` variable after
the deferred closure ran (invisible to the caller). -/
structure InitDeviceOutcome where
  returned : Option GoErr
  unmountCalled : Bool
  driveCreated : Bool
  errVar : Option GoErr
deriving DecidableEq

/-- Final value of the local `err` variable after the deferred closure: the
unmount failure is appended to it when the unmount fails. -/
def appendUnmount (env : InitEnv) (e : GoErr) : Option GoErr :=
  match env.unmount with
  | some u => some (GoErr.appended e u)
  | none => some e

/-- Embedding of `initDevice` (lines 353 to 422).  After a successful mount,
every failure path runs the deferred compensating unmount; the deferred
closure's error append only reaches the local variable (`errVar`), never the
unnamed return value (`returned`). -/
def initDevice (env : InitEnv) (device : Device) : InitDeviceOutcome :=
  match env.getMounts with
  | Except.error e => ⟨some e, false, false, some e⟩
  | Except.ok (deviceMap, majorMinorMap) =>
    let mountPoints := derivedMountPoints deviceMap majorMinorMap device.MajorMinor
    if mountPoints.length ≠ 0 then
      ⟨some (GoErr.base ("device " ++ devPathOf device.Name ++ " mounted at " ++
        String.intercalate " " mountPoints)), false, false, none⟩
    else
      match env.makeFS with
      | Except.error e => ⟨some e, false, false, some e⟩
      | Except.ok _ =>
        match env.mount with
        | some e => ⟨some e, false, false, some e⟩
        | none =>
          match env.symlink with
          | some e => ⟨some e, true, false, appendUnmount env e⟩
          | none =>
            match env.makeMetaDir with
            | some e => ⟨some e, true, false, appendUnmount env e⟩
            | none =>
              match env.writeFile with
              | some e => ⟨some e, true, false, appendUnmount env e⟩
              | none =>
                match env.createDrive with
                | some e =>
                  ⟨some (GoErr.wrap "unable to create Drive CRD; " e), true, false,
                    appendUnmount env e⟩
                | none => ⟨none, false, true, none⟩

/-- Environment where the register-metadata stage (symlink) fails and the
compensating unmount also fails. -/
def envCompensate : InitEnv :=
  { getMounts := Except.ok ([], []), makeFS := Except.ok (100, 90), mount := none,
    unmount := some (GoErr.base "unmount failed"),
    symlink := some (GoErr.base "symlink failed"),
    makeMetaDir := none, writeFile := none, createDrive := none }

/-- Claim C3 (status: code_bug).  The claim (and the spec) say that when the
compensating unmount fails its error is appended to the error surfaced to
the caller.  On the code, the device IS unmounted before returning, and the
deferred closure computes the appended error, but it assigns it to the local
`err` variable while the function's result is an unnamed `error`: the caller
receives the original stage error alone. -/
theorem claim3_unmount_error_dropped :
    (initDevice envCompensate devSample).unmountCalled = true ∧
    (initDevice envCompensate devSample).returned = some (GoErr.base "symlink failed") ∧
    (initDevice envCompensate devSample).errVar =
      some (GoErr.appended (GoErr.base "symlink failed") (GoErr.base "unmount failed")) ∧
    (initDevice envCompensate devSample).returned ≠ (initDevice envCompensate devSample).errVar := by
  refine ⟨by decide, by decide, by decide, by decide⟩

/-- Environment where everything up to and including the metadata file
succeeds and only the Drive create call fails. -/
def envCreateFail : InitEnv :=
  { getMounts := Except.ok ([], []), makeFS := Except.ok (100, 90), mount := none,
    unmount := none, symlink := none, makeMetaDir := none, writeFile := none,
    createDrive := some (GoErr.base "already exists") }

/-- Claim C4 counterexample.  The claim says that when creating the Drive
record fails after format, mount and label succeeded, no compensating
unmount is performed.  On the code the deferred closure sees a non-nil local
error and unmounts the device. -/
theorem claim4_counterexample :
    (initDevice envCreateFail devSample).unmountCalled = true ∧
    ¬ (initDevice envCreateFail devSample).unmountCalled = false ∧
    (initDevice envCreateFail devSample).returned =
      some (GoErr.wrap "unable to create Drive CRD; " (GoErr.base "already exists")) := by
  refine ⟨by decide, by decide, by decide⟩

/-- Claim C4 as amended.  When creating the Drive record fails after the
device was successfully formatted, mounted and labeled, the failure is
surfaced (wrapped as "unable to create Drive CRD") AND the compensating
unmount is performed, exactly as for failures at the register-metadata
stage. -/
theorem claim4_create_failure_unmounts (env : InitEnv) (device : Device)
    (dm mmm : List (String × List String)) (tcfc : Nat × Nat) (e : GoErr)
    (hget : env.getMounts = Except.ok (dm, mmm))
    (hmp : derivedMountPoints dm mmm device.MajorMinor = [])
    (hfs : env.makeFS = Except.ok tcfc)
    (hmount : env.mount = none) (hsym : env.symlink = none)
    (hmeta : env.makeMetaDir = none) (hwrite : env.writeFile = none)
    (hcreate : env.createDrive = some e) :
    (initDevice env device).returned = some (GoErr.wrap "unable to create Drive CRD; " e) ∧
    (initDevice env device).unmountCalled = true := by
  simp [initDevice, hget, hfs, hmount, hsym, hmeta, hwrite, hcreate, hmp]

/-- Witness for claim C4 as amended at the concrete failing environment. -/
theorem claim4_witness :
    (initDevice envCreateFail devSample).returned =
      some (GoErr.wrap "unable to create Drive CRD; " (GoErr.base "already exists")) ∧
    (initDevice envCreateFail devSample).unmountCalled = true :=
  claim4_create_failure_unmounts envCreateFail devSample [] [] (100, 90)
    (GoErr.base "already exists") rfl rfl rfl rfl rfl rfl rfl rfl

/-
### Batch initialization: `initRequestEventHandler.initDevices`
(src/unnamed/part_001, lines 424 to 462) and the event wrapper `Handle`
(lines 484 to 530)

`initDevices` re-probes the requested major:minor numbers once, builds a map
from major:minor to probed device (later probe entries overwrite earlier
ones), and fills one pre-allocated result slot per requested device.  Each
slot in the embedding also carries whether the single-device pipeline was
launched for it.
-/

/-- Requested device descriptor (`types.InitDevice`). -/
structure InitDevice where
  Name : String
  MajorMinor : String
  ID : String
  Force : Bool
deriving DecidableEq

/-- Per-device result slot (`types.InitDeviceResult`); `Error` is the empty
string when the device initialized successfully. -/
structure InitDeviceResult where
  Name : String
  Error : String
deriving DecidableEq

/-- Lookup in the `probedDevices` map: built by forward iteration with map
assignment, so the last probed device with a given major:minor wins. -/
def probedLookup (devices : List Device) (mm : String) : Option Device :=
  devices.reverse.find? (fun d => d.MajorMinor == mm)

/-- The `Error()` string of an optional error (empty for nil). -/
def renderOpt : Option GoErr → String
  | some e => e.render
  | none => ""

/-- Embedding of the per-request loop of `initDevices` (lines 439 to 459).
Each element of the returned list is the result slot paired with a flag
recording whether the single-device pipeline was launched for that slot.
`envOf` supplies the collaborator outcomes of the pipeline launched for a
given device, force flag and reflink flag. -/
def initDevicesRun (digest : String → String) (nodeID : String) (reflink : Bool)
    (envOf : Device → Bool → Bool → InitEnv) (devices : List Device)
    (reqs : List InitDevice) : List (InitDeviceResult × Bool) :=
  reqs.map (fun rd =>
    match probedLookup devices rd.MajorMinor with
    | none => (⟨rd.Name, "device not found"⟩, false)
    | some device =>
      if device.ID digest nodeID = rd.ID then
        (⟨rd.Name, renderOpt (initDevice (envOf device rd.Force reflink) device).returned⟩,
          true)
      else (⟨rd.Name, "device state changed"⟩, false))

/-- Embedding of `initDevices` including the re-probe error path
(lines 430 to 433): a probe failure aborts the whole batch. -/
def initDevicesGo (digest : String → String) (nodeID : String) (reflink : Bool)
    (envOf : Device → Bool → Bool → InitEnv)
    (getDevicesResult : Except GoErr (List Device)) (reqs : List InitDevice) :
    Except GoErr (List (InitDeviceResult × Bool)) :=
  match getDevicesResult with
  | Except.error e => Except.error e
  | Except.ok devices => Except.ok (initDevicesRun digest nodeID reflink envOf devices reqs)

theorem zip_map_slot {α β : Type _} (f : α → β) :
    ∀ (l : List α) (x : α) (y : β), (x, y) ∈ l.zip (l.map f) → y = f x := by
  intro l
  induction l with
  | nil => intro x y h; simp at h
  | cons a l ih =>
    intro x y h
    simp only [List.map_cons, List.zip_cons_cons, List.mem_cons] at h
    rcases h with h | h
    · simp only [Prod.mk.injEq] at h
      rw [h.1]
      exact h.2
    · exact ih x y h

/-- Claim C7 (confirmed).  For every requested device and its result slot:
absent major:minor records "device not found" and launches nothing; a
fingerprint differing from the requested one records "device state changed"
and launches nothing (no format or mount is attempted); otherwise the
single-device pipeline is launched and its error, if any, fills the slot. -/
theorem claim7_batch_dispatch (digest : String → String) (nodeID : String) (reflink : Bool)
    (envOf : Device → Bool → Bool → InitEnv) (devices : List Device)
    (reqs : List InitDevice) (rd : InitDevice) (slot : InitDeviceResult × Bool)
    (hmem : (rd, slot) ∈ reqs.zip (initDevicesRun digest nodeID reflink envOf devices reqs)) :
    (probedLookup devices rd.MajorMinor = none →
      slot = (⟨rd.Name, "device not found"⟩, false)) ∧
    (∀ device, probedLookup devices rd.MajorMinor = some device →
      device.ID digest nodeID ≠ rd.ID →
      slot = (⟨rd.Name, "device state changed"⟩, false)) ∧
    (∀ device, probedLookup devices rd.MajorMinor = some device →
      device.ID digest nodeID = rd.ID →
      slot = (⟨rd.Name,
        renderOpt (initDevice (envOf device rd.Force reflink) device).returned⟩, true)) := by
  unfold initDevicesRun at hmem
  have hs := zip_map_slot _ reqs rd slot hmem
  subst hs
  refine ⟨?_, ?_, ?_⟩
  · intro hnone
    simp [hnone]
  · intro device hsome hne
    simp [hsome, hne]
  · intro device hsome heq
    simp [hsome, heq]

/-- Request whose fingerprint no longer matches the probed device. -/
def reqChanged : InitDevice := ⟨"sda", "8:0", "stale-fingerprint", false⟩

/-- Witness for claim C7: a one-request batch against the probed `devSample`
whose re-probed fingerprint differs from the requested one; the slot records
"device state changed" and no pipeline runs. -/
theorem claim7_witness :
    ((⟨"sda", "device state changed"⟩ : InitDeviceResult), false) =
      ((⟨reqChanged.Name, "device state changed"⟩ : InitDeviceResult), false) :=
  (claim7_batch_dispatch (fun s => s) "node-1" false (fun _ _ _ => envCreateFail)
      [devSample] [reqChanged] reqChanged
      ((⟨"sda", "device state changed"⟩ : InitDeviceResult), false) (by decide)).2.1
    devSample (by decide) (by decide)

/-
### Event wrapper: `initRequestEventHandler.Handle`
(src/unnamed/part_001, lines 484 to 530)
-/

/-- Listener event kinds (`listener.EventArgs.Event`). -/
inductive EventType
  | Add
  | Update
  | Sync
  | Delete
deriving DecidableEq

/-- Per-node batch result (`types.InitResult`). -/
structure InitResult where
  Completed : Bool
  Error : String
  Devices : List InitDeviceResult
deriving DecidableEq

/-- Batch initialization request object (`types.InitRequest`): the per-node
request map (`Status.Request`) and per-node response map (`Spec.Response`). -/
structure InitRequest where
  name : String
  requestMap : List (String × List InitDevice)
  responseMap : List (String × InitResult)
deriving DecidableEq

/-- Go map lookup on a node-keyed association list. -/
def lookupNode {α : Type u} (m : List (String × α)) (node : String) : Option α :=
  (m.find? (fun p => p.1 == node)).map Prod.snd

/-- Observable outcome of one `Handle` call: the returned error, whether the
devices were probed (the batch ran), whether an update of the request was
submitted, and the response written for this node, if any. -/
structure HandleOutcome where
  returned : Option GoErr
  probed : Bool
  updated : Bool
  written : Option InitResult
deriving DecidableEq

/-- Embedding of `Handle` (lines 484 to 530).  `fetchResult` is the outcome
of the re-fetch inside the conflict-retry loop (`none` models a not-found,
treated as success) and `updateErr` the outcome of the update call. -/
def Handle (digest : String → String) (nodeID : String) (reflink : Bool)
    (envOf : Device → Bool → Bool → InitEnv)
    (getDevicesResult : Except GoErr (List Device))
    (fetchResult : Option InitRequest) (updateErr : Option GoErr)
    (event : EventType) (req : InitRequest) : HandleOutcome :=
  match event with
  | EventType.Add | EventType.Update | EventType.Sync =>
    if (lookupNode req.responseMap nodeID).isSome then ⟨none, false, false, none⟩
    else
      match lookupNode req.requestMap nodeID with
      | none => ⟨none, false, false, none⟩
      | some reqDevices =>
        let initResult : InitResult :=
          match initDevicesGo digest nodeID reflink envOf getDevicesResult reqDevices with
          | Except.ok slots => ⟨true, "", slots.map Prod.fst⟩
          | Except.error e => ⟨true, e.render, []⟩
        match fetchResult with
        | none => ⟨none, true, false, none⟩
        | some _ => ⟨updateErr, true, true, some initResult⟩
  | EventType.Delete => ⟨none, false, false, none⟩

/-- Claim C8 (confirmed).  On an Add, Update or Sync event, when the request's
response map already holds an entry for this handler's node, `Handle` returns
success without probing or initializing any device and without writing any
update. -/
theorem claim8_idempotent (digest : String → String) (nodeID : String) (reflink : Bool)
    (envOf : Device → Bool → Bool → InitEnv)
    (getDevicesResult : Except GoErr (List Device))
    (fetchResult : Option InitRequest) (updateErr : Option GoErr)
    (event : EventType) (req : InitRequest)
    (hev : event = EventType.Add ∨ event = EventType.Update ∨ event = EventType.Sync)
    (hresp : (lookupNode req.responseMap nodeID).isSome = true) :
    Handle digest nodeID reflink envOf getDevicesResult fetchResult updateErr event req =
      ⟨none, false, false, none⟩ := by
  rcases hev with rfl | rfl | rfl <;> simp [Handle, hresp]

/-- Request already answered for node-1. -/
def reqAnswered : InitRequest :=
  { name := "ir-1",
    requestMap := [("node-1", [reqChanged])],
    responseMap := [("node-1", ⟨true, "", []⟩)] }

/-- Witness for claim C8 at a concrete answered request. -/
theorem claim8_witness :
    Handle (fun s => s) "node-1" false (fun _ _ _ => envCreateFail)
      (Except.ok [devSample]) (some reqAnswered) none EventType.Sync reqAnswered =
      ⟨none, false, false, none⟩ :=
  claim8_idempotent (fun s => s) "node-1" false (fun _ _ _ => envCreateFail)
    (Except.ok [devSample]) (some reqAnswered) none EventType.Sync reqAnswered
    (Or.inr (Or.inr rfl)) (by decide)

/-
### Finalizer repair: `dummyReleaseVolume` (src/cmd/kubectl-directpv/
drives_reclaim.go, lines 263 to 293), `excludeFinalizer` (lines 295 to 304)
and `setValidFinazers` (src/cmd/kubectl-directpv/drives_check.go, lines 326
to 343)

Both update functions are embedded as their state computation on the fetched
drive record; the surrounding Get/Update API calls carry no logic of their
own.  The finalizer constants live in the apis package outside src/.
-/

/-- Modelled from the spec: the data-protection finalizer token (the
`DirectCSIDriveFinalizerDataProtection` constant, outside src/). -/
def directCSIDriveFinalizerDataProtection : String := "direct.csi.min.io/data-protection"

/-- Modelled from the spec: the "fixed prefix" of a volume-association
finalizer token, completed by the volume's name (the
`DirectCSIDriveFinalizerPrefix` constant, outside src/). -/
def directCSIDriveFinalizerVolume : String := "direct.csi.min.io.volume/"

/-- Drive lifecycle status (`directcsi.DriveStatus`). -/
inductive DriveStatus
  | Available
  | Ready
  | InUse
  | Unavailable
  | Terminating
deriving DecidableEq

/-- The fields of a `DirectCSIDrive` record touched by the repair paths. -/
structure CSIDrive where
  name : String
  finalizers : List String
  driveStatus : DriveStatus
  totalCapacity : Int
  freeCapacity : Int
  allocatedCapacity : Int
deriving DecidableEq

/-- Embedding of `excludeFinalizer` (drives_reclaim.go lines 295 to 304):
drop every occurrence of the finalizer, reporting whether one was found. -/
def excludeFinalizer : List String → String → List String × Bool
  | [], _ => ([], false)
  | f :: fs, fin =>
    let (r, found) := excludeFinalizer fs fin
    if f = fin then (r, true) else (f :: r, found)

/-- Embedding of the drive mutation of `dummyReleaseVolume` (lines 263 to
293): remove the volume's finalizer; when it was present and the single
remaining finalizer is the data-protection token, the status becomes Ready;
capacities are rebalanced; nothing is updated when the finalizer was
absent.  The second component tells whether an Update was submitted. -/
def dummyReleaseVolume (drive : CSIDrive) (volumeName : String) (capacity : Int) :
    CSIDrive × Bool :=
  let (finalizers, found) :=
    excludeFinalizer drive.finalizers (directCSIDriveFinalizerVolume ++ volumeName)
  if found then
    let drive1 :=
      match finalizers with
      | [f] =>
        if f = directCSIDriveFinalizerDataProtection then
          { drive with driveStatus := DriveStatus.Ready }
        else drive
      | _ => drive
    let freeCapacity := drive1.freeCapacity + capacity
    ({ drive1 with
        finalizers := finalizers,
        freeCapacity := freeCapacity,
        allocatedCapacity := drive1.totalCapacity - freeCapacity }, true)
  else (drive, false)

/-- Embedding of the drive mutation of `setValidFinazers` (drives_check.go
lines 326 to 343): install the recomputed finalizer list; when it is exactly
the data-protection token alone, the status becomes Ready. -/
def setValidFinazers (drive : CSIDrive) (finalizers : List String) : CSIDrive :=
  let drive1 := { drive with finalizers := finalizers }
  match finalizers with
  | [f] =>
    if f = directCSIDriveFinalizerDataProtection then
      { drive1 with driveStatus := DriveStatus.Ready }
    else drive1
  | _ => drive1

/-- Claim C9 (confirmed).  When a volume-association finalizer is removed
during repair: if the only remaining finalizer is the data-protection token
the drive's status becomes Ready; if any volume finalizer remains the status
is unchanged.  Both repair paths (`dummyReleaseVolume` and
`setValidFinazers`) are covered. -/
theorem claim9_finalizer_repair :
    (∀ (drive : CSIDrive) (v : String) (cap : Int),
      (excludeFinalizer drive.finalizers (directCSIDriveFinalizerVolume ++ v)).2 = true →
      (excludeFinalizer drive.finalizers (directCSIDriveFinalizerVolume ++ v)).1 =
        [directCSIDriveFinalizerDataProtection] →
      ((dummyReleaseVolume drive v cap).1).driveStatus = DriveStatus.Ready) ∧
    (∀ (drive : CSIDrive) (v : String) (cap : Int) (f : String),
      (excludeFinalizer drive.finalizers (directCSIDriveFinalizerVolume ++ v)).2 = true →
      f ∈ (excludeFinalizer drive.finalizers (directCSIDriveFinalizerVolume ++ v)).1 →
      strStartsWith directCSIDriveFinalizerVolume f = true →
      ((dummyReleaseVolume drive v cap).1).driveStatus = drive.driveStatus) ∧
    (∀ (drive : CSIDrive),
      (setValidFinazers drive [directCSIDriveFinalizerDataProtection]).driveStatus =
        DriveStatus.Ready) ∧
    (∀ (drive : CSIDrive) (fs : List String) (f : String),
      f ∈ fs → strStartsWith directCSIDriveFinalizerVolume f = true →
      (setValidFinazers drive fs).driveStatus = drive.driveStatus) := by
  have hnp : ∀ f : String, strStartsWith directCSIDriveFinalizerVolume f = true →
      f ≠ directCSIDriveFinalizerDataProtection := by
    intro f hf heq
    rw [heq] at hf
    exact absurd hf (by decide)
  refine ⟨?_, ?_, ?_, ?_⟩
  · intro drive v cap hfound hrest
    have hex : excludeFinalizer drive.finalizers (directCSIDriveFinalizerVolume ++ v) =
        ([directCSIDriveFinalizerDataProtection], true) := by
      rw [← hrest, ← hfound]
    simp [dummyReleaseVolume, hex]
  · intro drive v cap f hfound hmem hpref
    rcases hexpair : excludeFinalizer drive.finalizers (directCSIDriveFinalizerVolume ++ v)
      with ⟨fs, fd⟩
    rw [hexpair] at hfound hmem
    simp only at hfound hmem
    subst hfound
    simp only [dummyReleaseVolume, hexpair]
    cases fs with
    | nil => simp at hmem
    | cons g gs =>
      cases gs with
      | nil =>
        have hfg : f = g := by simpa using hmem
        have hg : g ≠ directCSIDriveFinalizerDataProtection := hnp g (hfg ▸ hpref)
        simp [hg]
      | cons g2 gs2 => simp
  · intro drive
    simp [setValidFinazers]
  · intro drive fs f hmem hpref
    cases fs with
    | nil => simp at hmem
    | cons g gs =>
      cases gs with
      | nil =>
        have hfg : f = g := by simpa using hmem
        have hg : g ≠ directCSIDriveFinalizerDataProtection := hnp g (hfg ▸ hpref)
        simp [setValidFinazers, hg]
      | cons g2 gs2 => simp [setValidFinazers]

/-- Drive in use by one volume, plus the data-protection token. -/
def driveOneVolume : CSIDrive :=
  { name := "drive-1",
    finalizers := [directCSIDriveFinalizerVolume ++ "vol-1",
                   directCSIDriveFinalizerDataProtection],
    driveStatus := DriveStatus.InUse,
    totalCapacity := 100, freeCapacity := 40, allocatedCapacity := 60 }

/-- Drive in use by two volumes, plus the data-protection token. -/
def driveTwoVolumes : CSIDrive :=
  { driveOneVolume with
    finalizers := [directCSIDriveFinalizerVolume ++ "vol-1",
                   directCSIDriveFinalizerVolume ++ "vol-2",
                   directCSIDriveFinalizerDataProtection] }

/-- Witness for claim C9: releasing the only volume of `driveOneVolume`
leaves just the data-protection token and the status becomes Ready;
releasing one of two volumes of `driveTwoVolumes` leaves another volume
finalizer and the status stays InUse; same pair of outcomes for the
`setValidFinazers` repair path. -/
theorem claim9_witness :
    ((dummyReleaseVolume driveOneVolume "vol-1" 10).1).driveStatus = DriveStatus.Ready ∧
    ((dummyReleaseVolume driveTwoVolumes "vol-1" 10).1).driveStatus =
      driveTwoVolumes.driveStatus ∧
    (setValidFinazers driveOneVolume [directCSIDriveFinalizerDataProtection]).driveStatus =
      DriveStatus.Ready ∧
    (setValidFinazers driveTwoVolumes [directCSIDriveFinalizerVolume ++ "vol-2",
        directCSIDriveFinalizerDataProtection]).driveStatus =
      driveTwoVolumes.driveStatus :=
  ⟨claim9_finalizer_repair.1 driveOneVolume "vol-1" 10 (by decide) (by decide),
   claim9_finalizer_repair.2.1 driveTwoVolumes "vol-1" 10
     (directCSIDriveFinalizerVolume ++ "vol-2") (by decide) (by decide) (by decide),
   claim9_finalizer_repair.2.2.1 driveOneVolume,
   claim9_finalizer_repair.2.2.2 driveTwoVolumes
     [directCSIDriveFinalizerVolume ++ "vol-2", directCSIDriveFinalizerDataProtection]
     (directCSIDriveFinalizerVolume ++ "vol-2") (by simp) (by decide)⟩

end DirectPV
